import Mathlib

/-!
Shallow embedding of the cherry game-cluster core: the session agent
(package cherryAgent, file code.go) and the NATS discovery protocol
(package cherryDiscovery), together with the error-code taxonomy
(package cherryCode).  Pure logic of each operation is embedded as a
Lean function over explicit state; channel sends, log calls and bus
effects are recorded in the returned state so that the observable
behaviour of each operation can be stated and proved.
-/

namespace Cherry

/-- Error codes from package cherryCode. -/
def OK : Int := 0

/-- IsOK from package cherryCode. -/
def IsOK (code : Int) : Bool := code == OK

/-- IsFail from package cherryCode. -/
def IsFail (code : Int) : Bool := code != OK

/-- Session states; State transitions are Init → Working → Closed
(package cherrySession). -/
inductive SessionState
  | Init
  | Working
  | Closed
deriving DecidableEq, Repr

/-- WriteBacklog constant from cherryAgent: capacity of chSend and chWrite. -/
def WriteBacklog : Nat := 64

/-- pendingMessage from cherryAgent: message type, route, message id,
payload and error flag.  The Go payload is an interface value; it is
modelled by a Nat code, which is enough for the properties below. -/
structure PendingMessage where
  typ : Nat
  route : String
  mid : Nat
  payload : Nat
  err : Bool
deriving DecidableEq, Repr

/-- Observable agent state relevant to Agent.Send: the session state, the
contents of the chSend queue (head = oldest) and the number of warnings
logged by Send so far.  Each dropped message logs exactly one warning, so
the warning count is the drop counter. -/
structure SendState where
  sessionState : SessionState
  chSend : List PendingMessage
  sendWarnCount : Nat
deriving DecidableEq, Repr

/-- Agent.Send from code.go: when the session state is Closed, log a
warning and return; when len(chSend) ≥ WriteBacklog, log a warning and
return; otherwise enqueue the pending message. -/
def Agent.send (a : SendState) (typ : Nat) (route : String) (mid : Nat)
    (v : Nat) (isError : Bool) : SendState :=
  if a.sessionState = SessionState.Closed then
    { a with sendWarnCount := a.sendWarnCount + 1 }
  else if WriteBacklog ≤ a.chSend.length then
    { a with sendWarnCount := a.sendWarnCount + 1 }
  else
    { a with chSend := a.chSend ++
        [{ typ := typ, route := route, mid := mid, payload := v, err := isError }] }

/-- Observable state for Agent.Close: the session state, how many times the
on-close hooks have run, how many signals were sent on chDie and how many
times the connection was closed. -/
structure CloseState where
  sessionState : SessionState
  onCloseRuns : Nat
  deathSignals : Nat
  connCloses : Nat
deriving DecidableEq, Repr

/-- Agent.Close from code.go: under the per-agent lock, return at once if
the session is already Closed; otherwise set the state to Closed, run the
on-close process, signal chDie and close the connection. -/
def Agent.close (a : CloseState) : CloseState :=
  if a.sessionState = SessionState.Closed then a
  else
    { sessionState := SessionState.Closed
      onCloseRuns := a.onCloseRuns + 1
      deathSignals := a.deathSignals + 1
      connCloses := a.connCloses + 1 }

/-- Nanoseconds in one second (Go time.Second). -/
def second : Int := 1000000000

/-- Heartbeat selection in NewAgent from code.go: durations are int64
nanosecond counts; if Heartbeat.Seconds() < 1 (which for the integral
nanosecond count means Heartbeat < one second, including the zero value of
an unspecified option and negative values), set it to 60 seconds, else
keep the configured value. -/
def newAgentHeartbeat (optsHeartbeat : Int) : Int :=
  if optsHeartbeat < second then 60 * second else optsHeartbeat

/-- Heartbeat check in the ticker case of Agent.write, in unix seconds:
deadline = now − heartbeat, and the writer returns iff lastAt < deadline. -/
def heartbeatTimedOut (nowUnix lastAt heartbeat : Int) : Bool :=
  lastAt < nowUnix - heartbeat

/-- Readiness of the four select sources in one iteration of the writer
loop of Agent.write: chDie receivable, the heartbeat ticker fired, chWrite
nonempty, chSend nonempty. -/
structure Readiness where
  die : Bool
  tick : Bool
  writeQ : Bool
  sendQ : Bool
deriving DecidableEq, Repr

/-- The four sources of the writer-loop select in Agent.write. -/
inductive WriteSource
  | die
  | tick
  | writeQ
  | sendQ
deriving DecidableEq, Repr

/-- Whether a given source is ready in a given readiness vector. -/
def Readiness.ready (r : Readiness) : WriteSource → Bool
  | WriteSource.die => r.die
  | WriteSource.tick => r.tick
  | WriteSource.writeQ => r.writeQ
  | WriteSource.sendQ => r.sendQ

/-- One iteration of the select statement in Agent.write, embedded with Go
select semantics: each constructor is one case of the select and requires
only that its own communication is ready; when several cases are ready the
Go runtime chooses one of them by uniform pseudo-random selection, so every
ready case is a possible step. -/
inductive WriteStep (r : Readiness) : WriteSource → Prop
  | die (h : r.die = true) : WriteStep r WriteSource.die
  | tick (h : r.tick = true) : WriteStep r WriteSource.tick
  | writeQ (h : r.writeQ = true) : WriteStep r WriteSource.writeQ
  | sendQ (h : r.sendQ = true) : WriteStep r WriteSource.sendQ

/-- Choice function following the specification text, not the source: the
earliest ready source in the order death signal, heartbeat tick, raw-write
queue, send queue.  Written only to be compared against WriteStep. -/
def specPrioritySource (r : Readiness) : Option WriteSource :=
  if r.die then some WriteSource.die
  else if r.tick then some WriteSource.tick
  else if r.writeQ then some WriteSource.writeQ
  else if r.sendQ then some WriteSource.sendQ
  else none

/-- Member from cherryProto: NodeId, NodeType, Address, Settings. -/
structure Member where
  nodeId : String
  nodeType : String
  address : String
  settings : List (String × String)
deriving DecidableEq, Repr

/-- Modelled from the spec: GetMember of the embedded DiscoveryDefault
registry (the source of DiscoveryDefault is not in the excerpt; §3 and
§4.B describe a mapping nodeId → Member).  The registry is kept as a list
of members in insertion order; lookup is by node id. -/
def getMember (list : List Member) (nodeId : String) : Option Member :=
  list.find? (fun mem => mem.nodeId == nodeId)

/-- Modelled from the spec: AddMember of the embedded DiscoveryDefault
registry; add is idempotent per §4.B (check-then-add by node id). -/
def addMember (list : List Member) (m : Member) : List Member :=
  if (getMember list m.nodeId).isSome then list else list ++ [m]

/-- Modelled from the spec: RemoveMember of the embedded DiscoveryDefault
registry; removal of an unknown id is a no-op per §4.B. -/
def removeMember (list : List Member) (nodeId : String) : List Member :=
  list.filter (fun mem => mem.nodeId != nodeId)

/-- The addMember broadcast subject built in DiscoveryNATS.init from the
master node id. -/
def addSubject (masterId : String) : String :=
  "cherry.discovery." ++ masterId ++ ".addMember"

/-- The unregister broadcast subject built in DiscoveryNATS.init from the
master node id. -/
def unregisterSubject (masterId : String) : String :=
  "cherry.discovery." ++ masterId ++ ".unregister"

/-- The register request subject built in DiscoveryNATS.init from the
master node id. -/
def registerSubject (masterId : String) : String :=
  "cherry.discovery." ++ masterId ++ ".register"

/-- Effects of the master's register-subject handler from serverInit for a
request carrying a member that deserialized successfully: the registry
after AddMember, the member list sent back with msg.Respond, and the
publication on the addMember subject.  Marshal and Respond are modelled as
succeeding and bytes are identified with the members they deserialize to. -/
structure RegisterEffect where
  memberList : List Member
  reply : List Member
  publishedSubject : String
  publishedMember : Member
deriving DecidableEq, Repr

/-- The register-subject handler installed by DiscoveryNATS.serverInit
(which runs only on the master, so selfNodeId is the master's node id):
AddMember the new member, build the response list by skipping every member
whose node id equals the new member's id or the local node id, respond,
then publish the received bytes on the addMember subject. -/
def handleRegister (selfNodeId : String) (list : List Member)
    (newMember : Member) : RegisterEffect :=
  let list2 := addMember list newMember
  { memberList := list2
    reply := list2.filter (fun mem =>
      mem.nodeId != newMember.nodeId && mem.nodeId != selfNodeId)
    publishedSubject := addSubject selfNodeId
    publishedMember := newMember }

/-- The unregister-subject handler installed by DiscoveryNATS.init for a
message carrying a member that deserialized successfully: if the carried
node id equals the local node id, return without touching the registry;
otherwise RemoveMember the carried id. -/
def handleUnregister (selfNodeId : String) (list : List Member)
    (um : Member) : List Member :=
  if um.nodeId = selfNodeId then list
  else removeMember list um.nodeId

/-- Bus effects of DiscoveryNATS.Stop: the messages published (subject and
the member the payload deserializes to) and whether the NATS connection was
closed. -/
structure StopEffect where
  published : List (String × Member)
  busClosed : Bool
deriving DecidableEq, Repr

/-- DiscoveryNATS.Stop: when the node is a client (its node id differs from
the master's), marshal a member carrying only its own node id, publish it
on the unregister subject, then close the NATS connection; the master just
closes the connection.  Marshal and Publish are modelled as succeeding. -/
def DiscoveryNATS.stop (selfNodeId masterNodeId : String) : StopEffect :=
  if selfNodeId ≠ masterNodeId then
    { published := [(unregisterSubject masterNodeId,
        { nodeId := selfNodeId, nodeType := "", address := "", settings := [] })]
      busClosed := true }
  else
    { published := [], busClosed := true }

/-- Packet type code of the Kick packet (wire protocol, §6). -/
def kickType : Nat := 5

/-- Modelled from the spec: the outer packet codec (package cherryPacket is
not in the excerpt; §6 gives the frame as type:1 ‖ length:3 big-endian ‖
payload with a 24-bit maximum length, exceeding which is an encode error). -/
def packetEncode (typ : Nat) (payload : List Nat) : Option (List Nat) :=
  if payload.length < 2 ^ 24 then
    some (typ :: [payload.length / 2 ^ 16 % 256, payload.length / 2 ^ 8 % 256,
      payload.length % 256] ++ payload)
  else none

/-- Observable effects of Agent.Kick: warnings logged and the packets
written synchronously on the connection. -/
structure KickEffect where
  warnCount : Nat
  written : List (List Nat)
deriving DecidableEq, Repr

/-- Agent.Kick from code.go, as a function of the result of marshaling the
reason: on marshal failure it logs a warning but does not return, leaving
bytes nil (the empty payload); on packet-encode failure it logs and
returns; otherwise it writes the encoded packet directly to the
connection. -/
def Agent.kick (marshalResult : Option (List Nat)) : KickEffect :=
  let bytes := marshalResult.getD []
  let w := if marshalResult.isSome then 0 else 1
  match packetEncode kickType bytes with
  | none => { warnCount := w + 1, written := [] }
  | some pkg => { warnCount := w, written := [pkg] }

/-- One iteration of the reader loop of Agent.read: the connection read
failed, or it yielded a frame whose PacketDecode fails, or a frame decoding
into a list of packets (packets abstracted as Nat codes). -/
inductive ReadEvent
  | connErr
  | decodeErr
  | packets (ps : List Nat)
deriving DecidableEq, Repr

/-- Outcome of Agent.read on a stream of read events: the packets handed to
processPacket in order, the number of decoder warnings logged, and whether
the loop returned — which runs the deferred Close.  An exhausted stream
means the reader is still blocked on the connection, not closed. -/
structure ReadOutcome where
  processed : List Nat
  decodeWarnCount : Nat
  closeTriggered : Bool
deriving DecidableEq, Repr

/-- Agent.read from code.go: a connection-read error returns from the loop
(running the deferred Close); a packet-decode error logs a warning and
continues; otherwise every decoded packet is processed and the loop
continues. -/
def Agent.read : List ReadEvent → ReadOutcome
  | [] => { processed := [], decodeWarnCount := 0, closeTriggered := false }
  | ReadEvent.connErr :: _ =>
      { processed := [], decodeWarnCount := 0, closeTriggered := true }
  | ReadEvent.decodeErr :: rest =>
      let o := Agent.read rest
      { o with decodeWarnCount := o.decodeWarnCount + 1 }
  | ReadEvent.packets ps :: rest =>
      let o := Agent.read rest
      { o with processed := ps ++ o.processed }


/-! Helper lemmas about the spec-modelled registry. -/

/-- Lookup after an idempotent add of a member finds an entry with that
member's node id. -/
theorem getMember_addMember_self (list : List Member) (m : Member) :
    (getMember (addMember list m) m.nodeId).isSome = true := by
  unfold addMember
  by_cases h : (getMember list m.nodeId).isSome = true
  · simp [h]
  · rw [if_neg (by simpa using h)]
    unfold getMember
    rw [List.find?_isSome]
    exact ⟨m, by simp, by simp⟩

/-- Lookup after removing a node id finds nothing under that id. -/
theorem getMember_removeMember (list : List Member) (nodeId : String) :
    getMember (removeMember list nodeId) nodeId = none := by
  unfold getMember removeMember
  rw [List.find?_eq_none]
  intro x hx
  rw [List.mem_filter] at hx
  simpa using hx.2

/-- C1: Agent.Send on a session in state Closed, or with the send queue
already holding at least WriteBacklog (64) pending messages, returns
without enqueuing, logs exactly one more warning (the drop counter), and
leaves the queue — hence every earlier enqueued message — and the session
state unchanged. -/
theorem send_drop (a : SendState) (typ : Nat) (route : String) (mid : Nat)
    (v : Nat) (isError : Bool)
    (h : a.sessionState = SessionState.Closed ∨ WriteBacklog ≤ a.chSend.length) :
    Agent.send a typ route mid v isError =
      { a with sendWarnCount := a.sendWarnCount + 1 } := by
  unfold Agent.send
  rcases h with h | h
  · simp [h]
  · by_cases hc : a.sessionState = SessionState.Closed
    · simp [hc]
    · simp [hc, h]

/-- Witness for send_drop: a concrete Send on a Closed session drops. -/
theorem send_drop_witness :
    Agent.send
      { sessionState := SessionState.Closed, chSend := [], sendWarnCount := 0 }
      4 "chat" 1 7 false =
      { sessionState := SessionState.Closed, chSend := [], sendWarnCount := 1 } :=
  send_drop _ 4 "chat" 1 7 false (Or.inl rfl)

/-- C2 counterexample: with all four sources ready, the Go select may
process the send queue even though the death signal is also ready, so the
processed source is not always the earliest ready one in the priority
order of specPrioritySource. -/
theorem write_select_priority_counterexample :
    ¬ (∀ (r : Readiness) (s : WriteSource), WriteStep r s →
        specPrioritySource r = some s) := by
  intro h
  have hstep : WriteStep ⟨true, true, true, true⟩ WriteSource.sendQ :=
    WriteStep.sendQ rfl
  have h2 := h ⟨true, true, true, true⟩ WriteSource.sendQ hstep
  simp [specPrioritySource] at h2

/-- C2 amended: in every iteration of the writer loop the processed source
is one whose communication is ready, and conversely every ready source is a
possible choice — the select draws pseudo-randomly among the ready cases,
with no fixed priority among the four sources. -/
theorem write_select_ready (r : Readiness) (s : WriteSource) :
    WriteStep r s ↔ r.ready s = true := by
  constructor
  · intro h
    cases h with
    | die h => exact h
    | tick h => exact h
    | writeQ h => exact h
    | sendQ h => exact h
  · intro h
    cases s with
    | die => exact WriteStep.die h
    | tick => exact WriteStep.tick h
    | writeQ => exact WriteStep.writeQ h
    | sendQ => exact WriteStep.sendQ h

/-- C3: the master's register handler adds the deserialized member to the
registry, replies with the post-add member list from which exactly the
entries whose node id equals the requester's id or the master's own id are
removed, and publishes the new member on the addMember subject. -/
theorem register_handler_spec (selfId : String) (list : List Member)
    (nm : Member) :
    (handleRegister selfId list nm).memberList = addMember list nm ∧
    (getMember (handleRegister selfId list nm).memberList nm.nodeId).isSome = true ∧
    (∀ x, x ∈ (handleRegister selfId list nm).reply ↔
      x ∈ (handleRegister selfId list nm).memberList ∧
        x.nodeId ≠ nm.nodeId ∧ x.nodeId ≠ selfId) ∧
    (handleRegister selfId list nm).publishedSubject = addSubject selfId ∧
    (handleRegister selfId list nm).publishedMember = nm := by
  refine ⟨rfl, getMember_addMember_self list nm, ?_, rfl, rfl⟩
  intro x
  show x ∈ (addMember list nm).filter _ ↔ _
  rw [List.mem_filter]
  simp [handleRegister, and_assoc]

/-- Witness for register_handler_spec: concrete master registry with the
master itself and one gate; a register request from a second gate gets a
reply that contains the first gate but neither the requester nor the
master. -/
theorem register_handler_spec_witness :
    ({ nodeId := "g1", nodeType := "gate", address := "a1", settings := [] } : Member) ∈
      (handleRegister "m1"
        [{ nodeId := "m1", nodeType := "center", address := "a0", settings := [] },
         { nodeId := "g1", nodeType := "gate", address := "a1", settings := [] }]
        { nodeId := "g2", nodeType := "gate", address := "a2", settings := [] }).reply :=
  ((register_handler_spec "m1"
      [{ nodeId := "m1", nodeType := "center", address := "a0", settings := [] },
       { nodeId := "g1", nodeType := "gate", address := "a1", settings := [] }]
      { nodeId := "g2", nodeType := "gate", address := "a2", settings := [] }).2.2.1
    { nodeId := "g1", nodeType := "gate", address := "a1", settings := [] }).2
    ⟨by decide, by decide, by decide⟩

/-- C4: Close is idempotent — on an already-Closed session it changes
nothing (no hooks, no death signal, no connection close), and the first
Close transitions the session to Closed, runs the on-close hooks once,
signals the death channel once and closes the connection once. -/
theorem close_idempotent (a : CloseState) :
    (a.sessionState = SessionState.Closed → Agent.close a = a) ∧
    (a.sessionState ≠ SessionState.Closed →
      Agent.close a =
        { sessionState := SessionState.Closed
          onCloseRuns := a.onCloseRuns + 1
          deathSignals := a.deathSignals + 1
          connCloses := a.connCloses + 1 }) ∧
    Agent.close (Agent.close a) = Agent.close a := by
  by_cases h : a.sessionState = SessionState.Closed
  · simp [Agent.close, h]
  · simp [Agent.close, h]

/-- Witness for close_idempotent: Close on a concrete Closed state is the
identity, and a first Close on a Working state closes everything once. -/
theorem close_idempotent_witness :
    Agent.close
        { sessionState := SessionState.Closed, onCloseRuns := 1,
          deathSignals := 1, connCloses := 1 } =
      { sessionState := SessionState.Closed, onCloseRuns := 1,
        deathSignals := 1, connCloses := 1 } ∧
    Agent.close
        { sessionState := SessionState.Working, onCloseRuns := 0,
          deathSignals := 0, connCloses := 0 } =
      { sessionState := SessionState.Closed, onCloseRuns := 1,
        deathSignals := 1, connCloses := 1 } :=
  ⟨(close_idempotent _).1 rfl, (close_idempotent _).2.1 (by decide)⟩

/-- C5: on a heartbeat tick the writer terminates exactly when the time
since the last recorded heartbeat strictly exceeds the heartbeat duration,
and keeps running when a packet arrived within the heartbeat duration. -/
theorem heartbeat_timeout_iff (nowUnix lastAt heartbeat : Int) :
    (heartbeatTimedOut nowUnix lastAt heartbeat = true ↔
      nowUnix - lastAt > heartbeat) ∧
    (heartbeatTimedOut nowUnix lastAt heartbeat = false ↔
      nowUnix - lastAt ≤ heartbeat) := by
  unfold heartbeatTimedOut
  constructor
  · rw [decide_eq_true_eq]; omega
  · rw [decide_eq_false_iff_not]; omega

/-- C6: the constructed agent's heartbeat is 60 seconds when the configured
value is below one second (including the unspecified zero value), and the
configured value otherwise. -/
theorem newAgent_heartbeat_default (hb : Int) :
    (hb < second → newAgentHeartbeat hb = 60 * second) ∧
    (second ≤ hb → newAgentHeartbeat hb = hb) := by
  unfold newAgentHeartbeat
  constructor
  · intro h; simp [h]
  · intro h; rw [if_neg (by omega)]

/-- Witness for newAgent_heartbeat_default: the zero value defaults to 60
seconds and a two-second configuration is kept. -/
theorem newAgent_heartbeat_default_witness :
    newAgentHeartbeat 0 = 60 * second ∧
    newAgentHeartbeat (2 * second) = 2 * second :=
  ⟨(newAgent_heartbeat_default 0).1 (by decide),
   (newAgent_heartbeat_default (2 * second)).2 (by decide)⟩

/-- C7: the unregister handler removes the carried node id from the
registry exactly when it differs from the local node id — in that case no
entry with the carried id remains — and leaves the registry untouched when
the carried id is its own, so a node never removes itself. -/
theorem unregister_handler_spec (selfId : String) (list : List Member)
    (um : Member) :
    (um.nodeId ≠ selfId →
      handleUnregister selfId list um = removeMember list um.nodeId ∧
      getMember (handleUnregister selfId list um) um.nodeId = none) ∧
    (um.nodeId = selfId → handleUnregister selfId list um = list) ∧
    (∀ x, x ∈ handleUnregister selfId list um ↔
      x ∈ list ∧ (um.nodeId = selfId ∨ x.nodeId ≠ um.nodeId)) := by
  by_cases h : um.nodeId = selfId
  · refine ⟨fun hn => absurd h hn, fun _ => by simp [handleUnregister, h], ?_⟩
    intro x
    simp [handleUnregister, h]
  · refine ⟨fun _ => ⟨by simp [handleUnregister, h], ?_⟩,
      fun he => absurd he h, ?_⟩
    · rw [show handleUnregister selfId list um = removeMember list um.nodeId
        from by simp [handleUnregister, h]]
      exact getMember_removeMember list um.nodeId
    · intro x
      rw [show handleUnregister selfId list um = removeMember list um.nodeId
        from by simp [handleUnregister, h]]
      unfold removeMember
      rw [List.mem_filter]
      simp [h]

/-- Witness for unregister_handler_spec: a concrete node g1 removes g2 on
an unregister message carrying g2, and keeps itself. -/
theorem unregister_handler_spec_witness :
    getMember
      (handleUnregister "g1"
        [{ nodeId := "g1", nodeType := "gate", address := "a1", settings := [] },
         { nodeId := "g2", nodeType := "gate", address := "a2", settings := [] }]
        { nodeId := "g2", nodeType := "", address := "", settings := [] }) "g2" =
      none :=
  ((unregister_handler_spec "g1"
      [{ nodeId := "g1", nodeType := "gate", address := "a1", settings := [] },
       { nodeId := "g2", nodeType := "gate", address := "a2", settings := [] }]
      { nodeId := "g2", nodeType := "", address := "", settings := [] }).1
    (by decide)).2

/-- C8: a frame whose packet decode fails is logged and skipped — the
reader continues with the rest of the stream, processing and close status
unchanged — while a connection-read error terminates the reader loop
immediately, which triggers the deferred Close. -/
theorem read_loop_spec (rest : List ReadEvent) :
    Agent.read (ReadEvent.decodeErr :: rest) =
      { Agent.read rest with
        decodeWarnCount := (Agent.read rest).decodeWarnCount + 1 } ∧
    Agent.read (ReadEvent.connErr :: rest) =
      { processed := [], decodeWarnCount := 0, closeTriggered := true } := by
  constructor <;> rfl

/-- C9: Stop on a client node publishes a member carrying only its own node
id on the unregister subject and then closes the bus client; Stop on the
master closes the bus client without publishing anything. -/
theorem stop_spec (selfId masterId : String) :
    (selfId ≠ masterId →
      DiscoveryNATS.stop selfId masterId =
        { published := [(unregisterSubject masterId,
            { nodeId := selfId, nodeType := "", address := "", settings := [] })]
          busClosed := true }) ∧
    (selfId = masterId →
      DiscoveryNATS.stop selfId masterId =
        { published := [], busClosed := true }) := by
  unfold DiscoveryNATS.stop
  constructor
  · intro h; simp [h]
  · intro h; simp [h]

/-- Witness for stop_spec: a concrete client g2 publishes its id and
closes; the master m1 closes without publishing. -/
theorem stop_spec_witness :
    DiscoveryNATS.stop "g2" "m1" =
      { published := [(unregisterSubject "m1",
          { nodeId := "g2", nodeType := "", address := "", settings := [] })]
        busClosed := true } ∧
    DiscoveryNATS.stop "m1" "m1" = { published := [], busClosed := true } :=
  ⟨(stop_spec "g2" "m1").1 (by decide), (stop_spec "m1" "m1").2 rfl⟩

/-- C10: when marshaling the kick reason fails, Kick logs one warning and
still writes a Kick packet with an empty payload synchronously to the
connection — the encoded frame is the Kick type byte followed by a zero
24-bit length. -/
theorem kick_marshal_fail_still_writes :
    (Agent.kick none).warnCount = 1 ∧
    (Agent.kick none).written = [[kickType, 0, 0, 0]] ∧
    packetEncode kickType [] = some [kickType, 0, 0, 0] := by
  refine ⟨?_, ?_, ?_⟩ <;> rfl

end Cherry
